import Mathlib

/-!
Verification of the libmbus serial transport (`mbus-serial.c`) and the
baud-switch request tool (`mbus-serial-request-data.c`).

The C functions are shallowly embedded: every OS interaction (`read`,
`write`, `open`, `tcsetattr`, …) is turned into an explicit parameter or an
explicit piece of state, and each embedded function is a pure, executable
Lean function that mirrors the C control flow statement by statement.

Conventions used throughout:
* one `read(fd, …)` call is modelled by one element of a
  `List (Option (List Nat))`: `none` models `read` returning `-1`, and
  `some chunk` models a successful read delivering `chunk` (possibly empty,
  i.e. a `VTIME` timeout with no data);
* the external parser `mbus_parse` (declared in `mbus-protocol.h`, its body
  is not part of the serial module) is a parameter `parse : List Nat → Int`
  of the receive loop, matching its C contract: `> 0` means "this many more
  bytes are needed", `0` means "complete frame", `< 0` means "invalid data";
* C `NULL`-pointer argument guards are modelled by a Bool argument
  `argsValid` (the guard fires exactly when it is `false`).
-/

/-! ## Termios model

Only the fields the serial module touches are modelled: the control flags,
the input and output speeds (set through `cfsetispeed` / `cfsetospeed`) and
the `c_cc[VMIN]` / `c_cc[VTIME]` control characters.  The numeric constants
are the Linux `<termios.h>` values.
-/

def B300 : Nat := 7

def B1200 : Nat := 9

def B2400 : Nat := 11

def B9600 : Nat := 13

def CS8 : Nat := 0x30

def CREAD : Nat := 0x80

def CLOCAL : Nat := 0x800

def PARENB : Nat := 0x100

structure Termios where
  c_cflag : Nat
  c_ispeed : Nat
  c_ospeed : Nat
  vmin : Nat
  vtime : Nat
deriving DecidableEq

/-- The serial link state: `t` is `serial_data->t` (the termios structure
kept in the handle), `applied` is the attribute set last installed on the
open descriptor by `tcsetattr` (`none` if none was installed yet). -/
structure SerialState where
  t : Termios
  applied : Option Termios
deriving DecidableEq

/-! ## `mbus_serial_connect`

```c
if ((handle->fd = open(device, O_RDWR | O_NOCTTY)) < 0) return 0;
memset(term, 0, sizeof(*term));
term->c_cflag |= (CS8|CREAD|CLOCAL);
term->c_cflag |= PARENB;
term->c_cc[VMIN]  = 0;
term->c_cc[VTIME] = 2;
cfsetispeed(term, B2400);
cfsetospeed(term, B2400);
tcsetattr(handle->fd, TCSANOW, term);
return 1;
```
`argsValid` models the `handle == NULL || serial_data == NULL ||
serial_data->device == NULL` guards (all return 0), `openOk` models
whether `open(2)` succeeds.  On failure no state is produced. -/
def mbus_serial_connect (argsValid openOk : Bool) : Int × Option SerialState :=
  if argsValid then
    if openOk then
      let term : Termios :=
        ⟨CS8 ||| CREAD ||| CLOCAL ||| PARENB, B2400, B2400, 0, 2⟩
      (1, some ⟨term, some term⟩)
    else
      (0, none)
  else
    (0, none)

/-! ## `mbus_serial_set_baudrate` -/

/-- The tail of a `switch` arm of `mbus_serial_set_baudrate`:
```c
serial_data->t.c_cc[VTIME] = vt;                              // in the arm
if (cfsetispeed(&(serial_data->t), speed) != 0)  return -1;
if (cfsetospeed(&(serial_data->t), speed) != 0)  return -1;
if (tcsetattr(handle->fd, TCSANOW, &(serial_data->t)) != 0) return -1;
return 0;
```
The `VTIME` assignment happens in the `switch` arm, before any fallible
call.  `ciOk`, `coOk`, `tcOk` model whether `cfsetispeed`, `cfsetospeed`
and `tcsetattr` return 0; a failing call leaves its part of the state
untouched and makes the function return -1, with nothing installed on the
descriptor. -/
def applyBaud (ciOk coOk tcOk : Bool) (speed vt : Nat) (s : SerialState) :
    Int × SerialState :=
  let t1 : Termios := ⟨s.t.c_cflag, s.t.c_ispeed, s.t.c_ospeed, s.t.vmin, vt⟩
  if ciOk then
    let t2 : Termios := ⟨t1.c_cflag, speed, t1.c_ospeed, t1.vmin, t1.vtime⟩
    if coOk then
      let t3 : Termios := ⟨t2.c_cflag, t2.c_ispeed, speed, t2.vmin, t2.vtime⟩
      if tcOk then
        (0, ⟨t3, some t3⟩)
      else
        (-1, ⟨t3, s.applied⟩)
    else
      (-1, ⟨t2, s.applied⟩)
  else
    (-1, ⟨t1, s.applied⟩)

/-- `mbus_serial_set_baudrate(handle, baudrate)`: `handleValid` models the
`handle == NULL` guard; `ciOk`, `coOk`, `tcOk` the return values of the
three line-discipline calls (see `applyBaud`).  The `switch` maps
300/1200/2400/9600 to a speed constant and a `VTIME`; any other rate
returns -1 before touching the termios structure. -/
def mbus_serial_set_baudrate (handleValid ciOk coOk tcOk : Bool)
    (baudrate : Int) (s : SerialState) : Int × SerialState :=
  if handleValid then
    if baudrate = 300 then applyBaud ciOk coOk tcOk B300 12 s
    else if baudrate = 1200 then applyBaud ciOk coOk tcOk B1200 4 s
    else if baudrate = 2400 then applyBaud ciOk coOk tcOk B2400 2 s
    else if baudrate = 9600 then applyBaud ciOk coOk tcOk B9600 1 s
    else (-1, s)
  else
    (-1, s)

/-! ## `mbus_serial_send_frame` -/

/-- Outcome of one `mbus_serial_send_frame` call: the C return value, the
bytes handed to the `_mbus_send_event` hook (if it was invoked) and whether
`tcdrain` was reached. -/
structure SendOutcome where
  ret : Int
  sendEvent : Option (List Nat)
  drained : Bool
deriving DecidableEq

/-- `mbus_serial_send_frame(handle, frame)`:
```c
if (handle == NULL || frame == NULL) return -1;
if ((len = mbus_frame_pack(frame, buff, sizeof(buff))) == -1) return -1;
if ((ret = write(handle->fd, buff, len)) == len) {
    if (_mbus_send_event) _mbus_send_event(MBUS_HANDLE_TYPE_SERIAL, buff, len);
} else return -1;
tcdrain(handle->fd);
return 0;
```
`packResult` models the external `mbus_frame_pack` call (`none` = it
returned -1, `some buff` = it produced the packed bytes), `nwritten` the
return value of `write(2)`. -/
def mbus_serial_send_frame (argsValid : Bool) (packResult : Option (List Nat))
    (nwritten : Int) : SendOutcome :=
  if argsValid then
    match packResult with
    | none => ⟨-1, none, false⟩
    | some buff =>
      if nwritten = (buff.length : Int) then ⟨0, some buff, true⟩
      else ⟨-1, none, false⟩
  else
    ⟨-1, none, false⟩

/-! ## The frame assembler `mbus_parse`

The body of `mbus_parse` lives in `mbus-protocol.c`, which is not part of
the serial module's sources; only its contract is used by
`mbus_serial_recv_frame`.
-/

/-- Sum of a byte region modulo 256 — the M-Bus checksum. -/
def checksum8 (bs : List Nat) : Nat :=
  bs.foldl (fun a b => (a + b) % 256) 0

/-- Validation of a complete 5-byte SHORT frame buffer:
start `0x10`, control, address, checksum = (control+address) mod 256,
stop `0x16`.  Returns 0 (complete) or a negative error. -/
def validateShort (buff : List Nat) : Int :=
  match buff with
  | [_start, c, a, cs, stopByte] =>
    if cs = (c + a) % 256 ∧ stopByte = 0x16 then 0 else -1
  | _ => -1

/-- Validation of a complete LONG/CONTROL frame buffer:
`0x68 L L control address [CI payload…] checksum 0x16`, total length
`L + 6`, checksum over the `L` bytes from control to the end of the
payload.  Returns 0 (complete) or a negative error. -/
def validateLong (buff : List Nat) : Int :=
  match buff with
  | 0x68 :: l1 :: l2 :: rest =>
    if l1 = l2 then
      match rest.drop l1 with
      | [cs, stopByte] =>
        if cs = checksum8 (rest.take l1) ∧ stopByte = 0x16 then 0 else -1
      | _ => -1
    else -1
  | _ => -1

/-- Modelled from the spec: the frame assembler `mbus_parse`
(`mbus-protocol.c` is not among the sources; this follows §4.2 of the
design).  On an empty buffer it requests 1 byte; `0xE5` is a complete ACK;
`0x10` starts a 5-byte SHORT frame; `0x68` starts a LONG/CONTROL frame of
total length `L + 6` where `L` is byte 1; any other start byte is invalid.
Return value: `n > 0` = need `n` more bytes, `0` = complete, `< 0` =
invalid. -/
def mbus_parse (buff : List Nat) : Int :=
  match buff with
  | [] => 1
  | start :: rest =>
    if start = 0xE5 then 0
    else if start = 0x10 then
      if buff.length < 5 then (5 : Int) - buff.length else validateShort buff
    else if start = 0x68 then
      match rest with
      | l1 :: _ :: _ =>
        let total := l1 + 6
        if buff.length < total then (total : Int) - buff.length
        else validateLong buff
      | _ => (3 : Int) - buff.length
    else -1

/-! ## `mbus_serial_recv_frame` -/

/-- How the `do { … } while remaining > 0` read loop of
`mbus_serial_recv_frame` ended: `readErr` = `read` returned -1 and the
function returned -1 from inside the loop; `timeoutBreak` = the
`timeouts >= 3` `break` fired; `parseDone` = `mbus_parse` returned `≤ 0`
so the `while` condition ended the loop. -/
inductive LoopExit where
  | readErr : LoopExit
  | timeoutBreak : LoopExit
  | parseDone : LoopExit
deriving DecidableEq

/-- Result of the read loop: how it exited, the final buffer contents
(`buff[0..len)`), the final value of the C variable `remaining`, and the
trace of `read` results actually consumed, in order. -/
structure LoopResult where
  exit : LoopExit
  buff : List Nat
  remaining : Int
  consumed : List (Option (List Nat))
deriving DecidableEq

/-- Prepend a consumed read to the trace of a loop result. -/
def consCons (r : Option (List Nat)) :
    Option LoopResult → Option LoopResult
  | none => none
  | some res => some ⟨res.exit, res.buff, res.remaining, r :: res.consumed⟩

/-- The read loop of `mbus_serial_recv_frame`:
```c
remaining = 1; len = 0; timeouts = 0;
do {
    if ((nread = read(handle->fd, &buff[len], remaining)) == -1) return -1;
    if (nread == 0) {
        timeouts++;
        if (timeouts >= 3) break;
    }
    len += nread;
} while ((remaining = mbus_parse(frame, buff, len)) > 0);
```
`reads` supplies the successive `read` results; `none` is returned when the
supply is exhausted while the loop still wants to read (a real link blocks
instead, so theorems only speak about runs where the supply suffices). -/
def recvLoopAux (parse : List Nat → Int) :
    List (Option (List Nat)) → List Nat → Nat → Int → Option LoopResult
  | [], _, _, _ => none
  | none :: _, buff, _, remaining =>
    some ⟨.readErr, buff, remaining, [none]⟩
  | some chunk :: rest, buff, timeouts, remaining =>
    if chunk.isEmpty then
      if timeouts + 1 ≥ 3 then
        some ⟨.timeoutBreak, buff, remaining, [some chunk]⟩
      else
        let rem := parse buff
        if rem > 0 then
          consCons (some chunk) (recvLoopAux parse rest buff (timeouts + 1) rem)
        else
          some ⟨.parseDone, buff, rem, [some chunk]⟩
    else
      let buff2 := buff ++ chunk
      let rem := parse buff2
      if rem > 0 then
        consCons (some chunk) (recvLoopAux parse rest buff2 timeouts rem)
      else
        some ⟨.parseDone, buff2, rem, [some chunk]⟩

/-- Outcome of one `mbus_serial_recv_frame` call: the C return value and
the bytes handed to the `_mbus_recv_event` hook (if it was invoked). -/
structure RecvOutcome where
  ret : Int
  recvEvent : Option (List Nat)
deriving DecidableEq

/-- `mbus_serial_recv_frame(handle, frame)`: after the read loop,
```c
if (len == 0) return -1;                    // no data received
if (_mbus_recv_event) _mbus_recv_event(MBUS_HANDLE_TYPE_SERIAL, buff, len);
if (remaining != 0) return -2;              // incomplete/invalid data
return 0;
```
(the trailing `if (len == -1)` is unreachable: `len` is never assigned -1).
`argsValid` models the `handle == NULL || frame == NULL` guard. -/
def mbus_serial_recv_frame (argsValid : Bool) (parse : List Nat → Int)
    (reads : List (Option (List Nat))) : Option RecvOutcome :=
  if argsValid then
    match recvLoopAux parse reads [] 0 1 with
    | none => none
    | some res =>
      match res.exit with
      | .readErr => some ⟨-1, none⟩
      | _ =>
        if res.buff.length = 0 then some ⟨-1, none⟩
        else if res.remaining ≠ 0 then some ⟨-2, some res.buff⟩
        else some ⟨0, some res.buff⟩
  else
    some ⟨-1, none⟩

/-- Number of zero-byte reads (`some []`, i.e. `read` returned 0) in a
trace of consumed reads. -/
def countEmptyReads (tr : List (Option (List Nat))) : Nat :=
  tr.countP (fun r => decide (r = some []))

/-- Whether a trace of consumed reads contains three consecutive zero-byte
reads. -/
def hasThreeConsecEmpty : List (Option (List Nat)) → Bool
  | some [] :: some [] :: some [] :: _ => true
  | _ :: rest => hasThreeConsecEmpty rest
  | [] => false

/-! ## The baud-switch receive poll of `mbus-serial-request-data.c`

```c
for (i=0; i<10; i++) {
    if (mbus_recv_frame(handle, &reply) == MBUS_RECV_RESULT_OK) break;
}
if (i>=10) { fprintf(stderr, "Failed to receive M-Bus response frame.\n"); goto FAIL; }
```
-/

/-- The `for` loop above: `attempts` lists, per iteration, whether
`mbus_recv_frame` returned `MBUS_RECV_RESULT_OK`; `i` is the loop
variable.  Returns the value of `i` when the loop exits (by `break` or by
exhausting the iterations). -/
def pollLoop (attempts : List Bool) (i : Nat) : Nat :=
  match attempts with
  | [] => i
  | ok :: rest => if ok then i else pollLoop rest (i + 1)

/-- The `i >= 10` test after the loop: `true` means `main` prints
"Failed to receive M-Bus response frame." and fails. -/
def baudSwitchPollFailed (attempts : List Bool) : Bool :=
  decide (10 ≤ pollLoop attempts 0)

/-! ## Helper definitions and lemmas (shared) -/

/-- A concrete serial state used by witnesses. -/
def s0 : SerialState := ⟨⟨0, 0, 0, 0, 0⟩, none⟩

/-- `pollLoop` never decreases the loop variable and advances it at most
once per attempt. -/
theorem pollLoop_bounds : ∀ (attempts : List Bool) (i : Nat),
    i ≤ pollLoop attempts i ∧ pollLoop attempts i ≤ i + attempts.length
  | [], i => by simp [pollLoop]
  | true :: rest, i => by
    have hstep : pollLoop (true :: rest) i = i := rfl
    rw [hstep]
    simp
  | false :: rest, i => by
    have hstep : pollLoop (false :: rest) i = pollLoop rest (i + 1) := rfl
    have ih := pollLoop_bounds rest (i + 1)
    rw [hstep]
    simp only [List.length_cons]
    omega

/-- The loop breaks early exactly when some attempt succeeded. -/
theorem pollLoop_lt_iff : ∀ (attempts : List Bool) (i : Nat),
    pollLoop attempts i < i + attempts.length ↔ true ∈ attempts
  | [], i => by simp [pollLoop]
  | true :: rest, i => by
    have hstep : pollLoop (true :: rest) i = i := rfl
    rw [hstep]
    simp only [List.length_cons, List.mem_cons]
    constructor
    · intro _
      left
      trivial
    · intro _
      omega
  | false :: rest, i => by
    have hstep : pollLoop (false :: rest) i = pollLoop rest (i + 1) := rfl
    have ih := pollLoop_lt_iff rest (i + 1)
    rw [hstep]
    simp only [List.length_cons, List.mem_cons]
    constructor
    · intro h
      exact Or.inr (ih.mp (by omega))
    · rintro (hF | hT)
      · exact absurd hF (by decide)
      · have := ih.mpr hT
        omega

/-- Claim C4: the baud-switch exchange attempts to receive a reply at most
10 times; it succeeds (the post-loop `i >= 10` failure test does not fire)
exactly when some of the 10 attempts — possibly exactly the 10th — returns
a complete frame, and it fails with the timeout diagnostic exactly when all
10 attempts fail. -/
theorem baud_switch_poll_bound (attempts : List Bool)
    (hlen : attempts.length = 10) :
    (pollLoop attempts 0 < 10 ↔ true ∈ attempts) ∧
    (baudSwitchPollFailed attempts = true ↔ ∀ a ∈ attempts, a = false) := by
  have hlt := pollLoop_lt_iff attempts 0
  rw [hlen] at hlt
  simp only [Nat.zero_add] at hlt
  have hfail : baudSwitchPollFailed attempts = true ↔
      ¬ pollLoop attempts 0 < 10 := by
    simp [baudSwitchPollFailed, Nat.not_lt]
  have hmem : (true ∉ attempts) ↔ ∀ a ∈ attempts, a = false := by
    constructor
    · intro hn a ha
      cases a
      · rfl
      · exact absurd ha hn
    · intro hall hm
      exact absurd (hall true hm) (by decide)
  refine ⟨hlt, ?_⟩
  rw [hfail, ← hmem, hlt]

/-- Witness for C4: with 9 failing attempts followed by a success on the
10th, the poll succeeds; with 10 failing attempts it fails. -/
theorem baud_switch_poll_bound_witness :
    (pollLoop [false, false, false, false, false, false, false, false, false, true] 0 < 10) ∧
    (baudSwitchPollFailed [false, false, false, false, false, false, false, false, false, false] = true) :=
  ⟨(baud_switch_poll_bound _ (by decide)).1.mpr (by decide),
   (baud_switch_poll_bound _ (by decide)).2.mpr (by decide)⟩

/-- Claim C5: a requested baud rate outside {300, 1200, 2400, 9600} makes
`mbus_serial_set_baudrate` return -1 with the line configuration (speeds
and VTIME) untouched, whatever the line-discipline calls would do; a rate
inside the set, with the three line-discipline calls succeeding, returns 0
and installs the new attributes on the descriptor (`tcsetattr` with
`TCSANOW`) at once — and when one of those calls fails the function
returns -1 with nothing installed on the descriptor, never a deferred
change. -/
theorem set_baudrate_unsupported_or_applies (ci co tc : Bool) (b : Int)
    (s : SerialState) :
    ((b ≠ 300 ∧ b ≠ 1200 ∧ b ≠ 2400 ∧ b ≠ 9600) →
      mbus_serial_set_baudrate true ci co tc b s = (-1, s)) ∧
    ((b = 300 ∨ b = 1200 ∨ b = 2400 ∨ b = 9600) →
      (ci = true → co = true → tc = true →
        (mbus_serial_set_baudrate true ci co tc b s).1 = 0 ∧
        ((mbus_serial_set_baudrate true ci co tc b s).2).applied =
          some ((mbus_serial_set_baudrate true ci co tc b s).2).t) ∧
      (¬ (ci = true ∧ co = true ∧ tc = true) →
        (mbus_serial_set_baudrate true ci co tc b s).1 = -1 ∧
        ((mbus_serial_set_baudrate true ci co tc b s).2).applied =
          s.applied)) := by
  constructor
  · rintro ⟨h1, h2, h3, h4⟩
    simp [mbus_serial_set_baudrate, h1, h2, h3, h4]
  · rintro (rfl | rfl | rfl | rfl) <;>
      exact ⟨by rintro rfl rfl rfl; simp [mbus_serial_set_baudrate, applyBaud],
             by intro hfail; cases ci <;> cases co <;> cases tc <;>
               simp_all [mbus_serial_set_baudrate, applyBaud]⟩

/-- Witness for C5: requesting 600 baud fails and leaves the state alone;
requesting 2400 baud with working line-discipline calls succeeds, and with
a failing `tcsetattr` it returns -1 with nothing installed. -/
theorem set_baudrate_unsupported_or_applies_witness :
    mbus_serial_set_baudrate true true true true 600 s0 = (-1, s0) ∧
    (mbus_serial_set_baudrate true true true true 2400 s0).1 = 0 ∧
    (mbus_serial_set_baudrate true true true false 2400 s0).1 = -1 :=
  ⟨(set_baudrate_unsupported_or_applies true true true 600 s0).1 (by decide),
   (((set_baudrate_unsupported_or_applies true true true 2400 s0).2
      (by decide)).1 rfl rfl rfl).1,
   (((set_baudrate_unsupported_or_applies true true false 2400 s0).2
      (by decide)).2 (by decide)).1⟩

/-- Claim C6: a successful `mbus_serial_connect` returns 1 and leaves the
line configured with CS8, even parity (PARENB), CLOCAL|CREAD, VMIN = 0,
VTIME = 2 and input/output speed B2400, with those attributes installed on
the descriptor; a failed open returns 0, distinct from the success
result. -/
theorem connect_configures_line :
    (mbus_serial_connect true true).1 = 1 ∧
    (∃ st : SerialState, (mbus_serial_connect true true).2 = some st ∧
      st.t.c_cflag &&& CS8 = CS8 ∧
      st.t.c_cflag &&& PARENB = PARENB ∧
      st.t.c_cflag &&& (CLOCAL ||| CREAD) = CLOCAL ||| CREAD ∧
      st.t.vmin = 0 ∧ st.t.vtime = 2 ∧
      st.t.c_ispeed = B2400 ∧ st.t.c_ospeed = B2400 ∧
      st.applied = some st.t) ∧
    (mbus_serial_connect true false).1 = 0 ∧ ((0 : Int) ≠ 1) := by
  refine ⟨rfl, ⟨_, rfl, ?_⟩, rfl, by decide⟩
  refine ⟨by decide, by decide, by decide, rfl, rfl, rfl, rfl, rfl⟩

/-- Claim C7: `mbus_serial_send_frame` returns -1 exactly when the
arguments are invalid, packing fails, or `write` transfers fewer bytes than
the packed length; on a full write it hands exactly the packed bytes to the
send hook, drains the output queue and returns 0. -/
theorem send_frame_result (argsValid : Bool) (packResult : Option (List Nat))
    (nwritten : Int)
    (hw : ∀ buff, packResult = some buff → nwritten ≤ (buff.length : Int)) :
    ((mbus_serial_send_frame argsValid packResult nwritten).ret = -1 ↔
      (argsValid = false ∨ packResult = none ∨
        ∃ buff, packResult = some buff ∧ nwritten < (buff.length : Int))) ∧
    (∀ buff, argsValid = true → packResult = some buff →
      nwritten = (buff.length : Int) →
      mbus_serial_send_frame argsValid packResult nwritten =
        ⟨0, some buff, true⟩) := by
  constructor
  · cases argsValid with
    | false =>
      constructor
      · intro _
        exact Or.inl rfl
      · intro _
        rfl
    | true =>
      cases packResult with
      | none =>
        constructor
        · intro _
          exact Or.inr (Or.inl rfl)
        · intro _
          rfl
      | some buff =>
        have hle := hw buff rfl
        by_cases h : nwritten = (buff.length : Int)
        · have hret : (mbus_serial_send_frame true (some buff) nwritten).ret = 0 := by
            simp [mbus_serial_send_frame, h]
          constructor
          · intro h0
            rw [hret] at h0
            exact absurd h0 (by norm_num)
          · rintro (hF | hN | ⟨b, hb, hblt⟩)
            · exact absurd hF (by decide)
            · exact absurd hN (by simp)
            · have hbb : buff = b := Option.some.inj hb
              subst hbb
              omega
        · have hlt : nwritten < (buff.length : Int) := lt_of_le_of_ne hle h
          have hret : (mbus_serial_send_frame true (some buff) nwritten).ret = -1 := by
            simp [mbus_serial_send_frame, h]
          exact iff_of_true hret (Or.inr (Or.inr ⟨buff, rfl, hlt⟩))
  · rintro buff rfl rfl rfl
    simp [mbus_serial_send_frame]

/-- Witness for C7: a full write of the packed ping frame invokes the hook
with the packed bytes, drains and returns 0; a short write returns -1. -/
theorem send_frame_result_witness :
    ((mbus_serial_send_frame true (some [0x10, 0x40, 0x01, 0x41, 0x16]) 3).ret = -1) ∧
    (mbus_serial_send_frame true (some [0x10, 0x40, 0x01, 0x41, 0x16]) 5 =
      ⟨0, some [0x10, 0x40, 0x01, 0x41, 0x16], true⟩) :=
  ⟨(send_frame_result true (some [0x10, 0x40, 0x01, 0x41, 0x16]) 3
      (by intro b hb; cases hb; decide)).1.mpr
      (Or.inr (Or.inr ⟨[0x10, 0x40, 0x01, 0x41, 0x16], rfl, by decide⟩)),
   (send_frame_result true (some [0x10, 0x40, 0x01, 0x41, 0x16]) 5
      (by intro b hb; cases hb; decide)).2
      [0x10, 0x40, 0x01, 0x41, 0x16] rfl rfl (by decide)⟩

/-- The `VTIME` chosen by a `switch` arm is assigned before any fallible
line-discipline call, so the in-memory termios carries it on every path of
`applyBaud`. -/
theorem applyBaud_vtime (ciOk coOk tcOk : Bool) (speed vt : Nat)
    (s : SerialState) :
    ((applyBaud ciOk coOk tcOk speed vt s).2).t.vtime = vt := by
  cases ciOk <;> cases coOk <;> cases tcOk <;> simp [applyBaud]

/-- Claim C8: over the supported set {300, 1200, 2400, 9600} the VTIME
installed by `mbus_serial_set_baudrate` is strictly decreasing in the baud
rate — 12, 4, 2 and 1 deciseconds respectively — so a lower baud always
gets a longer inter-byte timeout; this holds on every path, whatever the
line-discipline calls return, because the `switch` arm assigns VTIME
first. -/
theorem set_baudrate_vtime_antitone (ci1 co1 tc1 ci2 co2 tc2 : Bool)
    (b1 b2 : Int) (s1 s2 : SerialState)
    (h1 : b1 = 300 ∨ b1 = 1200 ∨ b1 = 2400 ∨ b1 = 9600)
    (h2 : b2 = 300 ∨ b2 = 1200 ∨ b2 = 2400 ∨ b2 = 9600)
    (hlt : b1 < b2) :
    ((mbus_serial_set_baudrate true ci2 co2 tc2 b2 s2).2).t.vtime <
      ((mbus_serial_set_baudrate true ci1 co1 tc1 b1 s1).2).t.vtime ∧
    ((mbus_serial_set_baudrate true ci1 co1 tc1 300 s1).2).t.vtime = 12 ∧
    ((mbus_serial_set_baudrate true ci1 co1 tc1 1200 s1).2).t.vtime = 4 ∧
    ((mbus_serial_set_baudrate true ci1 co1 tc1 2400 s1).2).t.vtime = 2 ∧
    ((mbus_serial_set_baudrate true ci1 co1 tc1 9600 s1).2).t.vtime = 1 := by
  rcases h1 with rfl | rfl | rfl | rfl <;> rcases h2 with rfl | rfl | rfl | rfl <;>
    first
      | omega
      | simp [mbus_serial_set_baudrate, applyBaud_vtime]

/-- Witness for C8: 300 baud gets a strictly longer VTIME than 9600 baud,
even when the 9600 change itself fails at every line-discipline call. -/
theorem set_baudrate_vtime_antitone_witness :
    ((mbus_serial_set_baudrate true false false false 9600 s0).2).t.vtime <
      ((mbus_serial_set_baudrate true true true true 300 s0).2).t.vtime :=
  (set_baudrate_vtime_antitone true true true false false false 300 9600 s0 s0
    (by decide) (by decide) (by decide)).1

/-! ## The receive loop: empty-read accounting -/

theorem countEmptyReads_cons (r : Option (List Nat))
    (l : List (Option (List Nat))) :
    countEmptyReads (r :: l) =
      countEmptyReads l + (if r = some [] then 1 else 0) := by
  simp [countEmptyReads, List.countP_cons]

/-- Core invariant of the read loop: entered with `timeouts = t ≤ 2`, a run
consumes at most `3 - t` further zero-byte reads, and it exits through the
`timeouts >= 3` break exactly when the zero-byte reads it consumed bring
the total to 3. -/
theorem recvLoopAux_invariant (parse : List Nat → Int) :
    ∀ (reads : List (Option (List Nat))) (buff : List Nat) (t : Nat)
      (rem : Int) (res : LoopResult), t ≤ 2 →
      recvLoopAux parse reads buff t rem = some res →
      t + countEmptyReads res.consumed ≤ 3 ∧
      (res.exit = LoopExit.timeoutBreak ↔
        t + countEmptyReads res.consumed = 3)
  | [], buff, t, rem, res => by
    intro ht h
    simp [recvLoopAux] at h
  | none :: rest, buff, t, rem, res => by
    intro ht h
    simp only [recvLoopAux] at h
    obtain rfl := (Option.some.inj h).symm
    rw [countEmptyReads_cons]
    constructor
    · simp [countEmptyReads]
      omega
    · simp [countEmptyReads]
      omega
  | some chunk :: rest, buff, t, rem, res => by
    intro ht h
    simp only [recvLoopAux] at h
    by_cases hchunk : chunk.isEmpty
    · rw [if_pos hchunk] at h
      have hce : chunk = [] := by
        cases chunk
        · rfl
        · simp at hchunk
      subst hce
      by_cases hto : t + 1 ≥ 3
      · rw [if_pos hto] at h
        obtain rfl := (Option.some.inj h).symm
        rw [countEmptyReads_cons]
        constructor
        · simp [countEmptyReads]
          omega
        · simp [countEmptyReads]
          omega
      · rw [if_neg hto] at h
        by_cases hp : parse buff > 0
        · rw [if_pos hp] at h
          cases hrec : recvLoopAux parse rest buff (t + 1) (parse buff) with
          | none =>
            rw [hrec] at h
            simp [consCons] at h
          | some res' =>
            rw [hrec] at h
            simp only [consCons] at h
            obtain rfl := (Option.some.inj h).symm
            obtain ⟨ih1, ih2⟩ := recvLoopAux_invariant parse rest buff (t + 1)
              (parse buff) res' (by omega) hrec
            have hcnt : countEmptyReads (some ([] : List Nat) :: res'.consumed) =
                countEmptyReads res'.consumed + 1 := by
              simp [countEmptyReads, List.countP_cons]
            rw [hcnt]
            constructor
            · omega
            · constructor
              · intro hx
                have := ih2.mp hx
                omega
              · intro hx
                exact ih2.mpr (by omega)
        · rw [if_neg hp] at h
          obtain rfl := (Option.some.inj h).symm
          rw [countEmptyReads_cons]
          constructor
          · simp [countEmptyReads]
            omega
          · simp [countEmptyReads]
            omega
    · rw [if_neg hchunk] at h
      have hne : ¬ (some chunk = some ([] : List Nat)) := by
        intro hx
        have : chunk = [] := Option.some.inj hx
        subst this
        simp at hchunk
      by_cases hp : parse (buff ++ chunk) > 0
      · rw [if_pos hp] at h
        cases hrec : recvLoopAux parse rest (buff ++ chunk) t
            (parse (buff ++ chunk)) with
        | none =>
          rw [hrec] at h
          simp [consCons] at h
        | some res' =>
          rw [hrec] at h
          simp only [consCons] at h
          obtain rfl := (Option.some.inj h).symm
          have ih := recvLoopAux_invariant parse rest (buff ++ chunk) t
            (parse (buff ++ chunk)) res' ht hrec
          rw [countEmptyReads_cons, if_neg hne]
          simpa using ih
      · rw [if_neg hp] at h
        obtain rfl := (Option.some.inj h).symm
        rw [countEmptyReads_cons, if_neg hne]
        constructor
        · simp [countEmptyReads]
          omega
        · simp [countEmptyReads]
          omega

/-! ## Claims about `mbus_serial_recv_frame` -/

/-- Claim C1: on a link that delivers no bytes (every read returns zero
bytes), `mbus_serial_recv_frame` performs exactly 3 empty reads — the
consumed trace is exactly `[some [], some [], some []]`, regardless of how
many further reads the link would offer — and then returns the no-data
error -1. -/
theorem recv_frame_silent_link_three_reads
    (reads : List (Option (List Nat)))
    (hall : ∀ r ∈ reads, r = some ([] : List Nat))
    (hlen : 3 ≤ reads.length) :
    recvLoopAux mbus_parse reads [] 0 1 =
      some ⟨.timeoutBreak, [], 1, [some [], some [], some []]⟩ ∧
    mbus_serial_recv_frame true mbus_parse reads = some ⟨-1, none⟩ := by
  rcases reads with _ | ⟨r1, _ | ⟨r2, _ | ⟨r3, rest⟩⟩⟩
  · exact absurd hlen (by simp)
  · exact absurd hlen (by simp)
  · exact absurd hlen (by simp)
  · have h1 : r1 = some [] := hall r1 (by simp)
    have h2 : r2 = some [] := hall r2 (by simp)
    have h3 : r3 = some [] := hall r3 (by simp)
    subst h1
    subst h2
    subst h3
    exact ⟨rfl, rfl⟩

/-- Witness for C1: four zero-byte reads on offer; only three are consumed
and the call returns -1 without invoking the hook. -/
theorem recv_frame_silent_link_three_reads_witness :
    recvLoopAux mbus_parse [some [], some [], some [], some []] [] 0 1 =
      some ⟨.timeoutBreak, [], 1, [some [], some [], some []]⟩ ∧
    mbus_serial_recv_frame true mbus_parse
      [some [], some [], some [], some []] = some ⟨-1, none⟩ :=
  recv_frame_silent_link_three_reads [some [], some [], some [], some []]
    (by decide) (by decide)

/-- Claim C2: whenever the read loop ends (no `read` error) having received
at least one byte while the parser still reports an incomplete or invalid
frame (`remaining ≠ 0`), `mbus_serial_recv_frame` returns -2, which is
distinct both from success 0 and from the no-data error -1. -/
theorem recv_frame_partial_returns_minus_two (parse : List Nat → Int)
    (reads : List (Option (List Nat))) (res : LoopResult)
    (h : recvLoopAux parse reads [] 0 1 = some res)
    (hexit : res.exit ≠ LoopExit.readErr)
    (hbuf : res.buff ≠ [])
    (hrem : res.remaining ≠ 0) :
    mbus_serial_recv_frame true parse reads = some ⟨-2, some res.buff⟩ ∧
    (-2 : Int) ≠ 0 ∧ (-2 : Int) ≠ -1 := by
  refine ⟨?_, by norm_num, by norm_num⟩
  obtain ⟨exit, buff, remaining, consumed⟩ := res
  have hbl : ¬ buff.length = 0 := by simpa using hbuf
  cases exit with
  | readErr => exact absurd rfl hexit
  | timeoutBreak => simp [mbus_serial_recv_frame, h, hbl, hrem]
  | parseDone => simp [mbus_serial_recv_frame, h, hbl, hrem]

/-- Witness for C2: one byte 0x68 arrives, then three timeouts; the call
returns -2 with the buffered byte. -/
theorem recv_frame_partial_returns_minus_two_witness :
    mbus_serial_recv_frame true mbus_parse
      [some [0x68], some [], some [], some []] = some ⟨-2, some [0x68]⟩ ∧
    (-2 : Int) ≠ 0 ∧ (-2 : Int) ≠ -1 :=
  recv_frame_partial_returns_minus_two mbus_parse
    [some [0x68], some [], some [], some []]
    ⟨.timeoutBreak, [0x68], 2, [some [0x68], some [], some [], some []]⟩
    (by decide) (by decide) (by decide) (by decide)

/-- Counterexample to C3: the break fires on the third zero-byte read in
total even though no three consecutive zero-byte reads ever occur — the
read of `[0x68]` does not restart the count. -/
theorem recv_frame_consecutive_count_cex :
    recvLoopAux mbus_parse [some [], some [], some [0x68], some []] [] 0 1 =
      some ⟨.timeoutBreak, [0x68], 2,
        [some [], some [], some [0x68], some []]⟩ ∧
    hasThreeConsecEmpty [some [], some [], some [0x68], some []] = false :=
  ⟨by decide, by decide⟩

/-- Claim C3 (amended): the empty-read counter counts zero-byte reads in
total — a read that delivers bytes does not restart the count — and the
loop aborts through the `timeouts >= 3` break exactly when the third
zero-byte read of the call occurs. -/
theorem recv_frame_break_iff_three_empty (parse : List Nat → Int)
    (reads : List (Option (List Nat))) (res : LoopResult)
    (h : recvLoopAux parse reads [] 0 1 = some res) :
    res.exit = LoopExit.timeoutBreak ↔ countEmptyReads res.consumed = 3 := by
  obtain ⟨-, hiff⟩ := recvLoopAux_invariant parse reads [] 0 1 res
    (by omega) h
  simpa using hiff

/-- Witness for C3 (amended): the run of the counterexample input did break
on timeout, so its trace holds exactly three zero-byte reads. -/
theorem recv_frame_break_iff_three_empty_witness :
    countEmptyReads [some [], some [], some [0x68], some []] = 3 :=
  (recv_frame_break_iff_three_empty mbus_parse
    [some [], some [], some [0x68], some []]
    ⟨.timeoutBreak, [0x68], 2, [some [], some [], some [0x68], some []]⟩
    (by decide)).mp rfl

/-- Counterexample to C9: a byte (0x68) is received, then `read` fails with
-1; the call returns -1 from inside the loop and the receive hook is never
invoked although a byte was received during the call. -/
theorem recv_frame_hook_skipped_on_read_error_cex :
    recvLoopAux mbus_parse [some [0x68], none] [] 0 1 =
      some ⟨.readErr, [0x68], 2, [some [0x68], none]⟩ ∧
    mbus_serial_recv_frame true mbus_parse [some [0x68], none] =
      some ⟨-1, none⟩ :=
  ⟨by decide, by decide⟩

/-- Claim C9 (amended): whenever the read loop ends without a `read` error
and at least one byte was received, the receive hook is invoked with
exactly the buffered bytes — in particular also when the frame is
incomplete or malformed and the function returns -2, not only on complete
frames. -/
theorem recv_frame_hook_on_buffered_data (parse : List Nat → Int)
    (reads : List (Option (List Nat))) (res : LoopResult)
    (h : recvLoopAux parse reads [] 0 1 = some res)
    (hexit : res.exit ≠ LoopExit.readErr)
    (hbuf : res.buff ≠ []) :
    mbus_serial_recv_frame true parse reads =
      some ⟨if res.remaining ≠ 0 then -2 else 0, some res.buff⟩ := by
  obtain ⟨exit, buff, remaining, consumed⟩ := res
  have hbl : ¬ buff.length = 0 := by simpa using hbuf
  by_cases hrem : remaining = 0
  · subst hrem
    cases exit with
    | readErr => exact absurd rfl hexit
    | timeoutBreak => simp [mbus_serial_recv_frame, h, hbl]
    | parseDone => simp [mbus_serial_recv_frame, h, hbl]
  · cases exit with
    | readErr => exact absurd rfl hexit
    | timeoutBreak => simp [mbus_serial_recv_frame, h, hbl, hrem]
    | parseDone => simp [mbus_serial_recv_frame, h, hbl, hrem]

/-- Witness for C9 (amended): a complete ACK byte 0xE5 makes the hook fire
with the buffered byte and the call return 0. -/
theorem recv_frame_hook_on_buffered_data_witness :
    mbus_serial_recv_frame true mbus_parse [some [0xE5]] =
      some ⟨if (0 : Int) ≠ 0 then -2 else 0, some [0xE5]⟩ :=
  recv_frame_hook_on_buffered_data mbus_parse [some [0xE5]]
    ⟨.parseDone, [0xE5], 0, [some [0xE5]]⟩ (by decide) (by decide) (by decide)

/-- Claim C10: within one call the empty-read counter only ever grows — a
successful read never resets it — so however empty and non-empty reads
interleave, at most 3 zero-byte reads are consumed in total; a fourth
zero-byte read never happens. -/
theorem recv_frame_at_most_three_empty_reads (parse : List Nat → Int)
    (reads : List (Option (List Nat))) (res : LoopResult)
    (h : recvLoopAux parse reads [] 0 1 = some res) :
    countEmptyReads res.consumed ≤ 3 := by
  have := recvLoopAux_invariant parse reads [] 0 1 res (by omega) h
  omega

/-- Witness for C10: empty and non-empty reads interleaved; the run stops
at the third zero-byte read although a fourth is on offer. -/
theorem recv_frame_at_most_three_empty_reads_witness :
    countEmptyReads [some [], some [0x68], some [], some []] ≤ 3 :=
  recv_frame_at_most_three_empty_reads mbus_parse
    [some [], some [0x68], some [], some [], some []]
    ⟨.timeoutBreak, [0x68], 2, [some [], some [0x68], some [], some []]⟩
    (by decide)
